import Mathlib

/-!
Verification development for the spacex-orbital-intelligence repository.

The repository ships the React frontend (store, globe renderers, sidebar
cards, API client).  The backend engine described by the specification
(propagator, proximity screening, risk scoring, conjunction workflow,
visibility, link budget) is not part of the tree; where a claim is decided
by that engine we model the component from the specification's words and
mark the definition with a doc comment starting "Modelled from the spec:".
All numeric code is embedded over exact rationals/integers.
-/

/-! ## Data model of the frontend store (src/unnamed/part_007, zustand store) -/

/-- A live position record; the store and the globe renderers consume
records with fields id/lat/lon/alt (altitude in km). -/
structure SatellitePosition where
  id : String
  lat : ℚ
  lon : ℚ
  alt : ℚ
deriving DecidableEq, Repr

/-- Minimal stand-in for the SatelliteDetail payload kept in the store;
its contents are opaque to every claim, only identity matters. -/
structure SatelliteDetail where
  id : String
deriving DecidableEq, Repr

/-- The sidebar tab enumeration of the store. -/
inductive ActiveTab
  | satellites | ops | insights | analysis | launches | simulation
deriving DecidableEq, Repr

/-- The stats record of the store state. -/
structure StoreStats where
  totalSatellites : ℕ
  highRiskCount : ℕ
  averageAltitude : ℤ
deriving DecidableEq, Repr

/-- The zustand ViewState of src/unnamed/part_007 (timestamps as integers,
the deorbit trajectory as (hours, altitude_km) pairs). -/
structure ViewState where
  autoRotate : Bool
  showOrbits : Bool
  showLabels : Bool
  selectedSatelliteId : Option String
  selectedSatellite : Option SatelliteDetail
  altitudeRange : ℚ × ℚ
  searchQuery : String
  sidebarOpen : Bool
  activeTab : ActiveTab
  satellites : List SatellitePosition
  lastUpdate : Option ℤ
  wsConnected : Bool
  stats : StoreStats
  deorbitTrajectory : Option (List (ℚ × ℚ))
  showEarthTexture : Bool
deriving DecidableEq, Repr

/-- The initialState object of the store (src/unnamed/part_007 lines 69-89). -/
def initialState : ViewState where
  autoRotate := true
  showOrbits := false
  showLabels := true
  selectedSatelliteId := none
  selectedSatellite := none
  altitudeRange := (200, 2000)
  searchQuery := ""
  sidebarOpen := true
  activeTab := .satellites
  satellites := []
  lastUpdate := none
  wsConnected := false
  stats := ⟨0, 0, 0⟩
  deorbitTrajectory := none
  showEarthTexture := true

/-- JavaScript truthiness of a nullable string: null and the empty string
are falsy, every other string is truthy. -/
def jsTruthyStr : Option String → Bool
  | none => false
  | some s => !(s == "")

/-- The store action selectSatellite (src/unnamed/part_007 lines 98-101):
sets selectedSatelliteId to id and autoRotate to
(id ? false : get().autoRotate), leaving every other field alone. -/
def selectSatellite (id : Option String) (s : ViewState) : ViewState :=
  { s with
    selectedSatelliteId := id
    autoRotate := if jsTruthyStr id then false else s.autoRotate }

/-- JavaScript Math.round: round half toward positive infinity. -/
def jsRound (q : ℚ) : ℤ := ⌊q + 1/2⌋

/-- The store action updateSatellites (src/unnamed/part_007 lines 111-125):
avgAlt is the sum of the alt fields divided by the length when the list is
nonempty and 0 otherwise; stats.totalSatellites is the list length,
stats.highRiskCount is reset to 0, stats.averageAltitude is
Math.round(avgAlt); satellites and lastUpdate are replaced. -/
def updateSatellites (sats : List SatellitePosition) (now : ℤ)
    (s : ViewState) : ViewState :=
  let avgAlt : ℚ :=
    if 0 < sats.length then (sats.map (·.alt)).sum / (sats.length : ℚ) else 0
  { s with
    satellites := sats
    lastUpdate := some now
    stats :=
      { totalSatellites := sats.length
        highRiskCount := 0
        averageAltitude := jsRound avgAlt } }

/-! ## Geographic-to-Cartesian mapping of the globe renderers
(src/frontend/src/components/Globe/Satellites.tsx and OrbitPath.tsx).

The renderers call JavaScript Math.sin/Math.cos and Math.PI; the embedding
abstracts the trigonometric primitives as a parameter record so the three
mapping sites stay exact and executable. -/

/-- Abstract trigonometric primitives (sin, cos, the constant pi). -/
structure TrigModel where
  sin : ℚ → ℚ
  cos : ℚ → ℚ
  pi : ℚ

/-- EARTH_RADIUS = 6.371 (Satellites.tsx line 8, OrbitPath.tsx line 9). -/
def EARTH_RADIUS : ℚ := 6371 / 1000

/-- SCALE_FACTOR = EARTH_RADIUS / 6371 (Satellites.tsx line 9). -/
def SCALE_FACTOR : ℚ := EARTH_RADIUS / 6371

/-- The point computed per satellite in the Satellites component
(Satellites.tsx lines 28-42). -/
def satellitesPoint (m : TrigModel) (lat lon alt : ℚ) : ℚ × ℚ × ℚ :=
  let phi := (90 - lat) * (m.pi / 180)
  let theta := (lon + 180) * (m.pi / 180)
  let r := EARTH_RADIUS + alt * SCALE_FACTOR * (1/1000)
  (-(r * m.sin phi * m.cos theta), r * m.cos phi, r * m.sin phi * m.sin theta)

/-- The point computed in SelectedSatelliteHighlight
(Satellites.tsx lines 101-107). -/
def selectedSatelliteHighlightPoint (m : TrigModel) (lat lon alt : ℚ) :
    ℚ × ℚ × ℚ :=
  let phi := (90 - lat) * (m.pi / 180)
  let theta := (lon + 180) * (m.pi / 180)
  let r := EARTH_RADIUS + alt * SCALE_FACTOR * (1/1000)
  (-(r * m.sin phi * m.cos theta), r * m.cos phi, r * m.sin phi * m.sin theta)

/-- The point computed per orbit sample in OrbitPath
(OrbitPath.tsx lines 32-46). -/
def orbitPathPoint (m : TrigModel) (lat lon alt : ℚ) : ℚ × ℚ × ℚ :=
  let phi := (90 - lat) * (m.pi / 180)
  let theta := (lon + 180) * (m.pi / 180)
  let r := EARTH_RADIUS + alt * SCALE_FACTOR * (1/1000)
  (-(r * m.sin phi * m.cos theta), r * m.cos phi, r * m.sin phi * m.sin theta)

/-- The scaled orbit radius shared by the three mapping sites. -/
def orbitRadius (alt : ℚ) : ℚ := EARTH_RADIUS + alt * SCALE_FACTOR * (1/1000)

/-- Squared Euclidean norm of a 3-vector. -/
def normSq (p : ℚ × ℚ × ℚ) : ℚ := p.1 ^ 2 + p.2.1 ^ 2 + p.2.2 ^ 2

/-! ## Conjunction Workflow Classifier (spec sections 4.5, 3; backend absent) -/

/-- A conjunction message / accepted ConjunctionEvent: object pair, TCA,
miss distance, probability of collision, emergency flag, ingestion
timestamp (spec section 3). -/
structure ConjunctionMessage where
  id1 : String
  id2 : String
  tca : ℤ
  missKm : ℚ
  prob : ℚ
  emergency : Bool
  ingestedAt : ℤ
deriving DecidableEq, Repr

/-- The three ordered triage tiers of the Workflow Classifier. -/
inductive Tier
  | SCREEN | ASSESS | MITIGATE
deriving DecidableEq, Repr

/-- Numeric rank realizing the order SCREEN < ASSESS < MITIGATE. -/
def Tier.rank : Tier → ℕ
  | .SCREEN => 0
  | .ASSESS => 1
  | .MITIGATE => 2

/-- Maximum of two tiers under SCREEN < ASSESS < MITIGATE. -/
def Tier.max (a b : Tier) : Tier := if a.rank ≤ b.rank then b else a

/-- Mitigate probability threshold (configurable default, spec 4.5). -/
def P_MITIGATE : ℚ := 1 / 1000

/-- Hard miss-distance floor in km (configurable default, spec 4.5). -/
def HARD_FLOOR_KM : ℚ := 1

/-- Assess probability threshold (configurable default, spec 4.5). -/
def P_ASSESS : ℚ := 1 / 100000

/-- Assess miss-distance band bound in km (configurable default, spec 4.5). -/
def ASSESS_DIST_KM : ℚ := 5

/-- Modelled from the spec: the tier assignment of the Conjunction Workflow
Classifier (backend code absent from the tree).  MITIGATE when probability
is above the mitigate threshold or the miss distance is below the hard
floor; ASSESS when probability or distance is in the intermediate band;
SCREEN otherwise.  A pure function of (probability, miss distance,
time-to-TCA) only. -/
def classifyTier (prob missKm : ℚ) (_timeToTcaSec : ℤ) : Tier :=
  if P_MITIGATE < prob ∨ missKm < HARD_FLOOR_KM then .MITIGATE
  else if P_ASSESS < prob ∨ missKm < ASSESS_DIST_KM then .ASSESS
  else .SCREEN

/-- Modelled from the spec: the deterministic recommendation, derived only
from tier and geometry (backend code absent from the tree). -/
def recommendationOf (t : Tier) (missKm : ℚ) : String :=
  match t with
  | .MITIGATE =>
      if missKm < HARD_FLOOR_KM then "Plan avoidance maneuver (hard floor)"
      else "Plan avoidance maneuver (high probability)"
  | .ASSESS => "Refine orbit determination and re-screen"
  | .SCREEN => "Continue routine screening"

/-- Modelled from the spec: classification of one message at time now —
the tier and the recommendation. -/
def classifyMsg (now : ℤ) (m : ConjunctionMessage) : Tier × String :=
  let t := classifyTier m.prob m.missKm (m.tca - now)
  (t, recommendationOf t m.missKm)

/-- The deduplication key of a message: the sorted object pair plus TCA
(spec section 3: superseded by a newer message for the same
(pair, TCA-window) key). -/
def dedupKey (m : ConjunctionMessage) : String × String × ℤ :=
  (min m.id1 m.id2, max m.id1 m.id2, m.tca)

/-- Modelled from the spec: ingestion of one conjunction message —
deduplicate by (object pair, TCA) keeping the most recently ingested
record (backend code absent from the tree). -/
def ingest (db : List ConjunctionMessage) (m : ConjunctionMessage) :
    List ConjunctionMessage :=
  m :: db.filter (fun e => !(dedupKey e == dedupKey m))

/-- A message is live at time now when its TCA has not yet passed. -/
def liveAt (now : ℤ) (m : ConjunctionMessage) : Bool := now < m.tca

/-- Workflow status colors; GREEN doubles as the empty-workflow status
(spec 4.5, rendered by ConjunctionWorkflowCard, src/unnamed/part_004
lines 202-203). -/
inductive WorkflowStatus
  | GREEN | YELLOW | RED
deriving DecidableEq, Repr

/-- The color of a tier: MITIGATE is RED, ASSESS is YELLOW, SCREEN is
GREEN. -/
def tierColor : Tier → WorkflowStatus
  | .SCREEN => .GREEN
  | .ASSESS => .YELLOW
  | .MITIGATE => .RED

/-- Modelled from the spec: the workflow status — the maximum tier present
across all live (non-expired-TCA) events, GREEN when there are none
(backend code absent from the tree). -/
def workflowStatus (now : ℤ) (db : List ConjunctionMessage) : WorkflowStatus :=
  let liveEvts := db.filter (liveAt now)
  if liveEvts.any (fun m => (classifyMsg now m).1 == .MITIGATE) then .RED
  else if liveEvts.any (fun m => (classifyMsg now m).1 == .ASSESS) then .YELLOW
  else .GREEN

/-- The CSS badge class computed from the workflow status string by
ConjunctionWorkflowCard (src/unnamed/part_004 lines 202-203). -/
def statusColorClass : WorkflowStatus → String
  | .GREEN => "bg-green-500"
  | .YELLOW => "bg-yellow-500"
  | .RED => "bg-red-500"

/-! ## Risk Scoring Engine (spec section 4.4; backend absent) -/

/-- Severity bands surfaced with each risk score. -/
inductive Severity
  | HIGH | MEDIUM | LOW
deriving DecidableEq, Repr

/-- Modelled from the spec: the normalized risk score of the Risk Scoring
Engine (backend code absent from the tree).  Piecewise in the miss
distance, continuous and strictly decreasing: distance below 1 km maps
into 0.7-1.0, 1-5 km maps into 0.3-0.7, above 5 km maps below 0.3; the
closing-speed argument is carried through unchanged by the default
distance-driven scoring. -/
def riskScore (distKm _closingSpeedKms : ℚ) : ℚ :=
  if distKm < 1 then 1 - (3/10) * distKm
  else if distKm ≤ 5 then 7/10 - (1/10) * (distKm - 1)
  else (3/2) / distKm

/-- Modelled from the spec: the severity band of a miss distance
(distance < 1 km HIGH, 1-5 km MEDIUM, above 5 km LOW). -/
def riskSeverity (distKm : ℚ) : Severity :=
  if distKm < 1 then .HIGH
  else if distKm ≤ 5 then .MEDIUM
  else .LOW

/-- Modelled from the spec: the scoring applied at the per-object risk
call site (surfaced by /analysis/risk, src/frontend/src/services/api.ts
lines 50-58); textually the same formula as riskScore. -/
def riskScorePerObject (distKm _closingSpeedKms : ℚ) : ℚ :=
  if distKm < 1 then 1 - (3/10) * distKm
  else if distKm ≤ 5 then 7/10 - (1/10) * (distKm - 1)
  else (3/2) / distKm

/-- Modelled from the spec: the scoring applied at the global alerts call
site (surfaced by /analysis/alerts, src/frontend/src/services/api.ts lines
99-110, rendered by CollisionAlertsCard, src/unnamed/part_005 lines
263-291); textually the same formula as riskScore. -/
def riskScoreAlerts (distKm _closingSpeedKms : ℚ) : ℚ :=
  if distKm < 1 then 1 - (3/10) * distKm
  else if distKm ≤ 5 then 7/10 - (1/10) * (distKm - 1)
  else (3/2) / distKm

/-- Modelled from the spec: the scoring applied at the density call site
(surfaced by /analysis/density); textually the same formula as
riskScore. -/
def riskScoreDensity (distKm _closingSpeedKms : ℚ) : ℚ :=
  if distKm < 1 then 1 - (3/10) * distKm
  else if distKm ≤ 5 then 7/10 - (1/10) * (distKm - 1)
  else (3/2) / distKm

/-! ## Link Budget Calculator (spec section 4.8; backend absent) -/

/-- Link classification by margin thresholds. -/
inductive LinkStatus
  | GOOD | MARGINAL | BAD
deriving DecidableEq, Repr

/-- Documented margin threshold for a GOOD link, dB (configurable
default, spec 4.8). -/
def GOOD_MARGIN_DB : ℚ := 10

/-- Documented margin threshold for a MARGINAL link, dB (configurable
default, spec 4.8). -/
def MARGINAL_MARGIN_DB : ℚ := 3

/-- Fixed per-band transmitter/receiver constants (configurable defaults,
spec 4.8): effective isotropic radiated power, receiver gain, base and
per-km path-loss coefficients of the embedded loss model, atmospheric
loss, required signal level. -/
def EIRP_DBW : ℚ := 50
def RX_GAIN_DB : ℚ := 40
def PATH_LOSS_BASE_DB : ℚ := 160
def PATH_LOSS_PER_KM_DB : ℚ := 1 / 100
def ATMOSPHERIC_LOSS_DB : ℚ := 2
def REQUIRED_SIGNAL_DBW : ℚ := -85

/-- The classification of a link margin: GOOD at or above the good
threshold, MARGINAL at or above the marginal threshold, BAD otherwise. -/
def linkStatusOf (marginDb : ℚ) : LinkStatus :=
  if GOOD_MARGIN_DB ≤ marginDb then .GOOD
  else if MARGINAL_MARGIN_DB ≤ marginDb then .MARGINAL
  else .BAD

/-- A link-budget result: either the tagged not-visible outcome carrying
no numeric loss/margin values, or the computed losses, margin and
status (spec 4.8: returns a not-visible result, not a numeric value,
when the pair has no current visibility). -/
inductive LinkBudgetResult
  | notVisible
  | ok (path_loss_db total_loss_db link_margin_db : ℚ) (link_status : LinkStatus)
deriving DecidableEq, Repr

/-- Modelled from the spec: the path loss of the embedded loss model,
affine in the slant range (backend code absent from the tree; the spec
fixes no formula, only that path loss is computed from slant range and
per-band constants). -/
def pathLossDb (slantRangeKm : ℚ) : ℚ :=
  PATH_LOSS_BASE_DB + PATH_LOSS_PER_KM_DB * slantRangeKm

/-- Modelled from the spec: the Link Budget Calculator (backend code
absent from the tree).  Given the visibility of the object-station pair
and its slant range, returns the not-visible result when the pair has no
current visibility, else path loss, total loss, link margin and the
classified status. -/
def computeLinkBudget (visible : Bool) (slantRangeKm : ℚ) : LinkBudgetResult :=
  if !visible then .notVisible
  else
    let pl := pathLossDb slantRangeKm
    let tl := pl + ATMOSPHERIC_LOSS_DB
    let margin := EIRP_DBW + RX_GAIN_DB - tl - REQUIRED_SIGNAL_DBW
    .ok pl tl margin (linkStatusOf margin)

/-! ## Ground-Station Visibility Engine (spec sections 4.6, 3; backend absent) -/

/-- A ground station: static reference data with a minimum elevation mask
(spec section 3; surfaced by /analysis/ground-stations,
src/frontend/src/services/api.ts lines 130-140).  Ground-plane position in
km in the station-local model. -/
structure GroundStation where
  name : String
  gx : ℚ
  gy : ℚ
  min_elevation_deg : ℚ
deriving DecidableEq, Repr

/-- The object's state used by the visibility query: ground-plane position
and height above the stations' horizon plane, km. -/
structure SatState where
  sx : ℚ
  sy : ℚ
  altKm : ℚ
deriving DecidableEq, Repr

/-- Modelled from the spec: the topocentric elevation of the object as
seen from a station, in degrees (backend code absent from the tree; the
spec fixes no formula).  Rational parametrization of the elevation angle
by the horizontal offset h and the vertical offset v: 90 * v / (h + |v|).
It is 90 exactly when the horizontal offset is zero and the object is
above the station, 0 on the horizon, and negative exactly when the object
is below the station's local horizon plane. -/
def elevationDeg (sat : SatState) (gs : GroundStation) : ℚ :=
  let h := |sat.sx - gs.gx| + |sat.sy - gs.gy|
  let v := sat.altKm
  90 * v / (h + |v|)

/-- One entry of the batch visibility answer: a visible station with its
elevation angle (src/frontend/src/services/api.ts lines 142-155:
visible_stations entries carry name and elevation_deg). -/
structure VisibleStation where
  name : String
  elevation_deg : ℚ
deriving DecidableEq, Repr

/-- Boolean descending-elevation comparison used to sort the batch
answer. -/
def visLe (a b : VisibleStation) : Bool := b.elevation_deg ≤ a.elevation_deg

/-- Modelled from the spec: the batch visibility query of the
Ground-Station Visibility Engine (backend code absent from the tree):
keep exactly the stations whose elevation is at or above their own
minimum elevation mask, attach the elevation angle, and sort by
descending elevation. -/
def getGroundStationVisibility (sat : SatState) (stations : List GroundStation) :
    List VisibleStation :=
  ((stations.filter (fun gs => gs.min_elevation_deg ≤ elevationDeg sat gs)).map
    (fun gs => ⟨gs.name, elevationDeg sat gs⟩)).mergeSort visLe

/-! ## Proximity Screening Engine (spec sections 4.3, 8; backend absent) -/

/-- One screened object: id, the TCA of its screening horizon, geographic
grid-plane coordinates and altitude, km as integers. -/
structure ScreenObject where
  oid : ℕ
  tca : ℤ
  px : ℤ
  py : ℤ
  altKm : ℤ
deriving DecidableEq, Repr

/-- Exact squared 3D distance between two screened objects. -/
def objDistSq (a b : ScreenObject) : ℤ :=
  (a.px - b.px) ^ 2 + (a.py - b.py) ^ 2 + (a.altKm - b.altKm) ^ 2

/-- A reported close-approach pair: the object-pair id sorted ascending,
the pair TCA, the exact squared distance. -/
structure CandidatePair where
  id1 : ℕ
  id2 : ℕ
  tca : ℤ
  distSq : ℤ
deriving DecidableEq, Repr

/-- Build the reported pair of two objects: ids sorted ascending, the
earlier TCA of the two, the exact squared distance. -/
def mkPair (a b : ScreenObject) : CandidatePair :=
  ⟨min a.oid b.oid, max a.oid b.oid, min a.tca b.tca, objDistSq a b⟩

/-- All unordered object pairs of a catalog, in catalog order. -/
def allObjPairs : List ScreenObject → List (ScreenObject × ScreenObject)
  | [] => []
  | o :: rest => rest.map (fun b => (o, b)) ++ allObjPairs rest

/-- The deterministic output order: ascending squared distance, then
ascending TCA, then lexicographically smallest object-pair id. -/
def pairLe (p q : CandidatePair) : Bool :=
  decide (p.distSq < q.distSq ∨ (p.distSq = q.distSq ∧
    (p.tca < q.tca ∨ (p.tca = q.tca ∧
      (p.id1 < q.id1 ∨ (p.id1 = q.id1 ∧ p.id2 ≤ q.id2))))))

/-- The altitude band / grid cell index of a coordinate for partition
width T. -/
def cellIndex (t coord : ℤ) : ℤ := coord / t

/-- Two coordinates fall in the same or adjacent partitions of width T. -/
def nearCell (t a b : ℤ) : Bool := (cellIndex t a - cellIndex t b).natAbs ≤ 1

/-- Modelled from the spec: the brute-force all-pairs scan of the
Proximity Screening Engine (backend code absent from the tree): every
pair at or below the alert threshold, in the deterministic order. -/
def screenBrute (t : ℤ) (cat : List ScreenObject) : List CandidatePair :=
  (((allObjPairs cat).filter (fun ab => objDistSq ab.1 ab.2 ≤ t ^ 2)).map
    (fun ab => mkPair ab.1 ab.2)).mergeSort pairLe

/-- Modelled from the spec: the partitioned scan of the Proximity
Screening Engine (backend code absent from the tree): exact 3D distance
is computed only for pairs whose altitude bands and geographic grid cells
(cell width = the alert threshold) are the same or adjacent. -/
def screenPartitioned (t : ℤ) (cat : List ScreenObject) : List CandidatePair :=
  (((allObjPairs cat).filter (fun ab =>
      nearCell t ab.1.altKm ab.2.altKm &&
      nearCell t ab.1.px ab.2.px &&
      nearCell t ab.1.py ab.2.py &&
      objDistSq ab.1 ab.2 ≤ t ^ 2)).map
    (fun ab => mkPair ab.1 ab.2)).mergeSort pairLe

/-! ## Snapshot Builder windowed trajectory (spec sections 4.2, 6, 8;
backend absent) -/

/-- One trajectory sample: timestamp (seconds), latitude, longitude,
altitude (the {timestamp, lat, lon, alt} contract of spec section 6). -/
structure OrbitSample where
  t : ℤ
  lat : ℚ
  lon : ℚ
  alt : ℚ
deriving DecidableEq, Repr

/-- Modelled from the spec: the windowed trajectory of the Snapshot
Builder (backend code absent from the tree): samples every stepMinutes
over the horizon of hours, starting at the epoch, each sample carrying
the propagated geographic position. -/
def windowedTrajectory (propagate : ℤ → ℚ × ℚ × ℚ) (epoch : ℤ)
    (hours stepMinutes : ℕ) : List OrbitSample :=
  (List.range (hours * 60 / stepMinutes)).map (fun (k : ℕ) =>
    let t : ℤ := epoch + (k : ℤ) * ((stepMinutes : ℤ) * 60)
    ⟨t, (propagate t).1, (propagate t).2.1, (propagate t).2.2⟩)

/-- The windowed-trajectory request issued by the orbit-path view:
getSatelliteOrbit(id, 2, 2), a 2-hour horizon with 2-minute steps
(src/frontend/src/components/Globe/OrbitPath.tsx line 26,
src/frontend/src/services/api.ts lines 43-47). -/
def orbitPathRequest (propagate : ℤ → ℚ × ℚ × ℚ) (epoch : ℤ) :
    List OrbitSample :=
  windowedTrajectory propagate epoch 2 2

/-- The tiers of the live (non-expired-TCA) events of a state. -/
def liveTiers (now : ℤ) (db : List ConjunctionMessage) : List Tier :=
  (db.filter (liveAt now)).map (fun m => (classifyMsg now m).1)

/-! ## Theorems -/

/-- C8: for every list of satellite positions passed to updateSatellites,
stats.totalSatellites equals the list's length and stats.averageAltitude
equals the arithmetic mean of the alt fields rounded to the nearest
integer (JavaScript Math.round, within 1/2 of the exact mean); for the
empty list averageAltitude is 0 and the guarded branch performs no
division. -/
theorem updateSatellites_stats (sats : List SatellitePosition) (now : ℤ)
    (s : ViewState) :
    (updateSatellites sats now s).stats.totalSatellites = sats.length ∧
    (updateSatellites sats now s).stats.averageAltitude =
      (if 0 < sats.length then
        jsRound ((sats.map (·.alt)).sum / (sats.length : ℚ)) else 0) ∧
    |((updateSatellites sats now s).stats.averageAltitude : ℚ) -
      (if 0 < sats.length then (sats.map (·.alt)).sum / (sats.length : ℚ) else 0)|
      ≤ 1/2 := by
  refine ⟨rfl, ?_, ?_⟩
  · by_cases h : 0 < sats.length
    · simp [updateSatellites, h]
    · have hjs : jsRound 0 = 0 := by norm_num [jsRound]
      simp [updateSatellites, h, hjs]
  · have hround : ∀ q : ℚ, |((jsRound q : ℤ) : ℚ) - q| ≤ 1/2 := by
      intro q
      rw [abs_le]
      constructor
      · have := Int.lt_floor_add_one (q + 1/2)
        simp only [jsRound]
        linarith
      · have := Int.floor_le (q + 1/2)
        simp only [jsRound]
        linarith
    by_cases h : 0 < sats.length
    · simpa [updateSatellites, h] using hround ((sats.map (·.alt)).sum / (sats.length : ℚ))
    · have h0 : ((updateSatellites sats now s).stats.averageAltitude : ℚ) = 0 := by
        have hjs : jsRound 0 = 0 := by norm_num [jsRound]
        simp [updateSatellites, h, hjs]
      rw [h0, if_neg h]
      norm_num

/-- C10 counterexample: the claim says every non-null id forces autoRotate
to false, but selectSatellite uses JavaScript truthiness, so the non-null
empty-string id leaves autoRotate at its current value (true in the
initial state). -/
theorem selectSatellite_empty_id_counterexample :
    (some "" : Option String) ≠ none ∧
    initialState.autoRotate = true ∧
    (selectSatellite (some "") initialState).autoRotate = true := by
  refine ⟨by simp, rfl, rfl⟩

/-- C10 (amended): selectSatellite writes only the selection and rotation
fields: selectedSatelliteId is set to the id; autoRotate becomes false for
every truthy (non-null, non-empty) id and keeps its current value for null
or the empty string; every other field of the store state is unchanged. -/
theorem selectSatellite_frame (id : Option String) (s : ViewState) :
    (selectSatellite id s).selectedSatelliteId = id ∧
    (selectSatellite id s).autoRotate =
      (match id with
        | none => s.autoRotate
        | some str => if str = "" then s.autoRotate else false) ∧
    (selectSatellite id s).showOrbits = s.showOrbits ∧
    (selectSatellite id s).showLabels = s.showLabels ∧
    (selectSatellite id s).selectedSatellite = s.selectedSatellite ∧
    (selectSatellite id s).altitudeRange = s.altitudeRange ∧
    (selectSatellite id s).searchQuery = s.searchQuery ∧
    (selectSatellite id s).sidebarOpen = s.sidebarOpen ∧
    (selectSatellite id s).activeTab = s.activeTab ∧
    (selectSatellite id s).satellites = s.satellites ∧
    (selectSatellite id s).lastUpdate = s.lastUpdate ∧
    (selectSatellite id s).wsConnected = s.wsConnected ∧
    (selectSatellite id s).stats = s.stats ∧
    (selectSatellite id s).deorbitTrajectory = s.deorbitTrajectory ∧
    (selectSatellite id s).showEarthTexture = s.showEarthTexture := by
  refine ⟨rfl, ?_, rfl, rfl, rfl, rfl, rfl, rfl, rfl, rfl, rfl, rfl, rfl, rfl, rfl⟩
  cases id with
  | none => rfl
  | some str =>
    by_cases h : str = ""
    · simp [selectSatellite, jsTruthyStr, h]
    · simp [selectSatellite, jsTruthyStr, h]

/-- C9: the three globe renderers share one geographic-to-Cartesian
mapping — the Satellites, SelectedSatelliteHighlight and OrbitPath points
coincide for every input; under the Pythagorean identity for the abstract
sin/cos the squared Euclidean distance of the point from the origin equals
the squared scaled radius r = EARTH_RADIUS + alt * SCALE_FACTOR * 0.001;
and r is at least EARTH_RADIUS whenever alt is nonnegative. -/
theorem globeMapping_consistent (m : TrigModel) (lat lon alt : ℚ) :
    satellitesPoint m lat lon alt = selectedSatelliteHighlightPoint m lat lon alt ∧
    satellitesPoint m lat lon alt = orbitPathPoint m lat lon alt ∧
    ((m.sin ((90 - lat) * (m.pi / 180))) ^ 2 +
        (m.cos ((90 - lat) * (m.pi / 180))) ^ 2 = 1 →
     (m.sin ((lon + 180) * (m.pi / 180))) ^ 2 +
        (m.cos ((lon + 180) * (m.pi / 180))) ^ 2 = 1 →
     normSq (satellitesPoint m lat lon alt) = orbitRadius alt ^ 2) ∧
    (0 ≤ alt → EARTH_RADIUS ≤ orbitRadius alt) := by
  refine ⟨rfl, rfl, ?_, ?_⟩
  · intro hphi htheta
    simp only [satellitesPoint, normSq, orbitRadius]
    linear_combination
      ((EARTH_RADIUS + alt * SCALE_FACTOR * (1/1000)) ^ 2 *
        (m.sin ((90 - lat) * (m.pi / 180))) ^ 2) * htheta +
      (EARTH_RADIUS + alt * SCALE_FACTOR * (1/1000)) ^ 2 * hphi
  · intro h
    simp only [orbitRadius, SCALE_FACTOR, EARTH_RADIUS]
    nlinarith [h]

/-- C9 witness: the theorem applied to a concrete trigonometric model
satisfying the Pythagorean identity and a concrete position. -/
theorem globeMapping_consistent_witness :
    normSq (satellitesPoint ⟨fun _ => 0, fun _ => 1, 0⟩ 0 0 550) =
      orbitRadius 550 ^ 2 ∧
    EARTH_RADIUS ≤ orbitRadius 550 := by
  have h := globeMapping_consistent ⟨fun _ => 0, fun _ => 1, 0⟩ 0 0 550
  exact ⟨h.2.2.1 (by norm_num) (by norm_num), h.2.2.2 (by norm_num)⟩

/-- C6: for the windowed-trajectory request issued by the orbit-path view
(2-hour horizon, 2-minute step), the trajectory is an ordered list of
{timestamp, lat, lon, alt} samples with exactly 60 samples and strictly
increasing timestamps, for every propagator and epoch. -/
theorem orbitPathRequest_sixty_ordered (propagate : ℤ → ℚ × ℚ × ℚ)
    (epoch : ℤ) :
    (orbitPathRequest propagate epoch).length = 60 ∧
    ((orbitPathRequest propagate epoch).map OrbitSample.t).Pairwise (· < ·) := by
  constructor
  · unfold orbitPathRequest windowedTrajectory
    rw [List.length_map, List.length_range]
  · unfold orbitPathRequest windowedTrajectory
    rw [List.map_map]
    refine List.Pairwise.map _ (fun a b hab => ?_) (List.pairwise_lt_range _)
    simp only [Function.comp_apply]
    push_cast
    omega

/-- C7: for every object-station pair with no current visibility the Link
Budget Calculator returns the tagged not-visible result, never numeric
loss/margin values; for every visible pair it returns path loss, total
loss and link margin, and the link status is exactly one of GOOD, MARGINAL
or BAD as decided by the documented margin thresholds. -/
theorem computeLinkBudget_spec (visible : Bool) (slantRangeKm : ℚ) :
    (visible = false → computeLinkBudget visible slantRangeKm = .notVisible) ∧
    (visible = true →
      ∃ pl tl mg st, computeLinkBudget visible slantRangeKm = .ok pl tl mg st ∧
        pl = pathLossDb slantRangeKm ∧
        tl = pl + ATMOSPHERIC_LOSS_DB ∧
        mg = EIRP_DBW + RX_GAIN_DB - tl - REQUIRED_SIGNAL_DBW ∧
        (st = .GOOD ↔ GOOD_MARGIN_DB ≤ mg) ∧
        (st = .MARGINAL ↔ MARGINAL_MARGIN_DB ≤ mg ∧ mg < GOOD_MARGIN_DB) ∧
        (st = .BAD ↔ mg < MARGINAL_MARGIN_DB)) := by
  constructor
  · intro h
    subst h
    rfl
  · intro h
    subst h
    refine ⟨_, _, _, _, rfl, rfl, rfl, rfl, ?_, ?_, ?_⟩ <;>
      · unfold linkStatusOf
        have hgm : MARGINAL_MARGIN_DB ≤ GOOD_MARGIN_DB := by
          unfold MARGINAL_MARGIN_DB GOOD_MARGIN_DB
          norm_num
        split_ifs with h1 h2 <;> simp_all <;> linarith

/-- C7 witness: the theorem applied to a concrete invisible pair, plus the
computed result of a concrete visible pair. -/
theorem computeLinkBudget_spec_witness :
    computeLinkBudget false 0 = LinkBudgetResult.notVisible ∧
    computeLinkBudget true 1000 =
      LinkBudgetResult.ok 170 172 3 LinkStatus.MARGINAL := by
  constructor
  · exact (computeLinkBudget_spec false 0).1 rfl
  · norm_num [computeLinkBudget, pathLossDb, linkStatusOf,
      PATH_LOSS_BASE_DB, PATH_LOSS_PER_KM_DB, ATMOSPHERIC_LOSS_DB,
      EIRP_DBW, RX_GAIN_DB, REQUIRED_SIGNAL_DBW,
      GOOD_MARGIN_DB, MARGINAL_MARGIN_DB]

/-- C2: the Conjunction Workflow Classifier is pure, deterministic and
idempotent — re-ingesting the same message leaves the deduplicated state
unchanged, and the classification (tier and recommendation) of an event
depends only on its (probability, miss distance, TCA) triple, never on
object identity, emergency flag, ingestion timestamp or arrival order
(classifyMsg takes no state, so the position of an event in the ingestion
sequence cannot influence its tier). -/
theorem workflowClassifier_pure_idempotent
    (db : List ConjunctionMessage) (m : ConjunctionMessage) (now : ℤ)
    (a b : ConjunctionMessage) :
    ingest (ingest db m) m = ingest db m ∧
    (a.prob = b.prob → a.missKm = b.missKm → a.tca = b.tca →
      classifyMsg now a = classifyMsg now b) := by
  constructor
  · unfold ingest
    have hm : (!(dedupKey m == dedupKey m)) = false := by simp
    rw [List.filter_cons, hm]
    simp only [List.filter_filter, hm]
    congr 1
    apply List.filter_congr
    intro x _
    cases hx : (!(dedupKey x == dedupKey m)) <;> simp [hx]
  · intro h1 h2 _h3
    unfold classifyMsg classifyTier recommendationOf
    rw [h1, h2]

/-- C2 witness: idempotence on a concrete state and message, and equal
classification of two concrete events that agree on (probability, miss
distance, TCA) but differ in ids, emergency flag and ingestion time. -/
theorem workflowClassifier_pure_idempotent_witness :
    ingest (ingest [] ⟨"A", "B", 100, 2, 1/500, false, 0⟩)
        ⟨"A", "B", 100, 2, 1/500, false, 0⟩ =
      ingest [] ⟨"A", "B", 100, 2, 1/500, false, 0⟩ ∧
    classifyMsg 0 ⟨"A", "B", 100, 2, 1/500, false, 0⟩ =
      classifyMsg 0 ⟨"C", "D", 100, 2, 1/500, true, 55⟩ := by
  exact ⟨(workflowClassifier_pure_idempotent [] ⟨"A", "B", 100, 2, 1/500, false, 0⟩
      0 ⟨"A", "B", 100, 2, 1/500, false, 0⟩ ⟨"C", "D", 100, 2, 1/500, true, 55⟩).1,
    (workflowClassifier_pure_idempotent [] ⟨"A", "B", 100, 2, 1/500, false, 0⟩
      0 ⟨"A", "B", 100, 2, 1/500, false, 0⟩ ⟨"C", "D", 100, 2, 1/500, true, 55⟩).2
      rfl rfl rfl⟩

/-- Helper: any over a mapped list tests the composed predicate. -/
theorem list_any_map' {α β : Type} (l : List α) (f : α → β) (p : β → Bool) :
    (l.map f).any p = l.any (fun a => p (f a)) := by
  induction l <;> simp_all

/-- Helper: the left argument's rank never exceeds the rank of the tier
maximum. -/
theorem tier_rank_le_max_left (a b : Tier) : a.rank ≤ (Tier.max a b).rank := by
  cases a <;> cases b <;> decide

/-- Helper: the right argument's rank never exceeds the rank of the tier
maximum. -/
theorem tier_rank_le_max_right (a b : Tier) : b.rank ≤ (Tier.max a b).rank := by
  cases a <;> cases b <;> decide

/-- Helper: the tier maximum is one of its arguments. -/
theorem tier_max_choice (a b : Tier) : Tier.max a b = a ∨ Tier.max a b = b := by
  cases a <;> cases b <;> simp [Tier.max, Tier.rank]

/-- Helper: the fold of Tier.max bounds the rank of every member. -/
theorem tierFold_rank_ub (ts : List Tier) :
    ∀ t ∈ ts, t.rank ≤ (ts.foldr Tier.max .SCREEN).rank := by
  induction ts with
  | nil => intro t ht; cases ht
  | cons a ts ih =>
    intro t ht
    rw [List.foldr_cons]
    rcases List.mem_cons.mp ht with h | h
    · subst h
      exact tier_rank_le_max_left _ _
    · exact le_trans (ih t h) (tier_rank_le_max_right _ _)

/-- Helper: over a nonempty list the fold of Tier.max is attained by a
member. -/
theorem tierFold_mem (ts : List Tier) (h : ts ≠ []) :
    ts.foldr Tier.max .SCREEN ∈ ts := by
  induction ts with
  | nil => exact absurd rfl h
  | cons a ts ih =>
    by_cases hts : ts = []
    · subst hts
      have hmax : Tier.max a (List.foldr Tier.max Tier.SCREEN []) = a := by
        cases a <;> simp [Tier.max, Tier.rank]
      rw [List.foldr_cons, hmax]
      exact List.mem_cons_self _ _
    · rw [List.foldr_cons]
      rcases tier_max_choice a (ts.foldr Tier.max .SCREEN) with hc | hc <;> rw [hc]
      · exact List.mem_cons_self _ _
      · exact List.mem_cons_of_mem _ (ih hts)

/-- Helper: the fold of Tier.max equals MITIGATE exactly when some member
is MITIGATE. -/
theorem tierFold_eq_mitigate_iff (ts : List Tier) :
    (ts.foldr Tier.max .SCREEN = .MITIGATE) ↔
      ts.any (fun t => t == Tier.MITIGATE) = true := by
  induction ts with
  | nil => simp
  | cons t ts ih =>
    cases t <;> cases hF : ts.foldr Tier.max Tier.SCREEN <;>
      simp_all [Tier.max, Tier.rank, List.any_cons]

/-- Helper: the MITIGATE/ASSESS checks of the workflow status agree with
the color of the fold of Tier.max. -/
theorem tierFold_status (ts : List Tier) :
    (if ts.any (fun t => t == Tier.MITIGATE) then WorkflowStatus.RED
     else if ts.any (fun t => t == Tier.ASSESS) then WorkflowStatus.YELLOW
     else WorkflowStatus.GREEN) = tierColor (ts.foldr Tier.max .SCREEN) := by
  induction ts with
  | nil => rfl
  | cons t ts ih =>
    have hmit := tierFold_eq_mitigate_iff ts
    cases t <;> cases hF : ts.foldr Tier.max Tier.SCREEN <;>
      simp_all [Tier.max, Tier.rank, tierColor, List.any_cons]

/-- Helper: workflowStatus expressed through the tiers of the live
events. -/
theorem workflowStatus_eq_statusFold (now : ℤ) (db : List ConjunctionMessage) :
    workflowStatus now db =
      (if (liveTiers now db).any (fun t => t == Tier.MITIGATE) then WorkflowStatus.RED
       else if (liveTiers now db).any (fun t => t == Tier.ASSESS) then WorkflowStatus.YELLOW
       else WorkflowStatus.GREEN) := by
  unfold workflowStatus liveTiers
  simp only [list_any_map']

/-- C3: the workflow status is the maximum tier among all live
(non-expired-TCA) events under SCREEN < ASSESS < MITIGATE, rendered as
that tier's color; with zero live events the status is exactly GREEN.
The fold of Tier.max is shown to be the maximum: it bounds the rank of
every live tier and is attained by one of them when any are live. -/
theorem workflowStatus_is_max_live_tier (now : ℤ) (db : List ConjunctionMessage) :
    (db.filter (liveAt now) = [] → workflowStatus now db = .GREEN) ∧
    workflowStatus now db = tierColor ((liveTiers now db).foldr Tier.max .SCREEN) ∧
    (∀ t ∈ liveTiers now db, t.rank ≤ ((liveTiers now db).foldr Tier.max .SCREEN).rank) ∧
    (liveTiers now db ≠ [] →
      ((liveTiers now db).foldr Tier.max .SCREEN) ∈ liveTiers now db) := by
  refine ⟨?_, ?_, tierFold_rank_ub _, tierFold_mem _⟩
  · intro h
    simp [workflowStatus, h]
  · exact (workflowStatus_eq_statusFold now db).trans (tierFold_status _)

/-- C3 witness: the theorem applied to the empty state (GREEN) and to a
concrete state holding one live MITIGATE event (RED). -/
theorem workflowStatus_is_max_live_tier_witness :
    workflowStatus 0 [] = .GREEN ∧
    workflowStatus 0 [⟨"A", "B", 100, 1/2, 1/100, false, 0⟩] = .RED := by
  constructor
  · exact (workflowStatus_is_max_live_tier 0 []).1 rfl
  · have h := (workflowStatus_is_max_live_tier 0
      [⟨"A", "B", 100, 1/2, 1/100, false, 0⟩]).2.1
    rw [h]
    norm_num [liveTiers, liveAt, classifyMsg, classifyTier, P_MITIGATE,
      HARD_FLOOR_KM, tierColor, Tier.max, Tier.rank]

/-- Helper: above 5 km the risk score is strictly below 0.3. -/
theorem riskScore_lt_3_10 (v d : ℚ) (hd : 5 < d) : riskScore d v < 3/10 := by
  unfold riskScore
  rw [if_neg (by linarith), if_neg (by linarith)]
  rw [div_lt_iff₀ (by linarith : (0:ℚ) < d)]
  linarith

/-- Helper: above 5 km the risk score stays strictly positive. -/
theorem riskScore_pos_of_5lt (v d : ℚ) (hd : 5 < d) : 0 < riskScore d v := by
  unfold riskScore
  rw [if_neg (by linarith), if_neg (by linarith)]
  exact div_pos (by norm_num) (by linarith)

/-- Helper: below 1 km the risk score lies in the HIGH band 0.7-1.0. -/
theorem riskScore_high_band (v d : ℚ) (h0 : 0 ≤ d) (hd : d < 1) :
    7/10 ≤ riskScore d v ∧ riskScore d v ≤ 1 := by
  unfold riskScore
  rw [if_pos hd]
  constructor <;> linarith

/-- Helper: between 1 and 5 km the risk score lies in the MEDIUM band
0.3-0.7. -/
theorem riskScore_med_band (v d : ℚ) (h1 : 1 ≤ d) (h5 : d ≤ 5) :
    3/10 ≤ riskScore d v ∧ riskScore d v ≤ 7/10 := by
  unfold riskScore
  rw [if_neg (by linarith), if_pos h5]
  constructor <;> linarith

/-- Helper: holding the closing speed fixed, the risk score strictly
decreases as the miss distance increases. -/
theorem riskScore_strict_anti (v d1 d2 : ℚ) (h0 : 0 ≤ d1) (h : d1 < d2) :
    riskScore d2 v < riskScore d1 v := by
  by_cases hd2a : d2 < 1
  · unfold riskScore
    rw [if_pos hd2a, if_pos (by linarith)]
    linarith
  · by_cases hd2b : d2 ≤ 5
    · by_cases hd1a : d1 < 1
      · unfold riskScore
        rw [if_neg (by linarith), if_pos hd2b, if_pos hd1a]
        linarith
      · unfold riskScore
        rw [if_neg (by linarith), if_pos hd2b, if_neg hd1a,
          if_pos (by linarith)]
        linarith
    · have hlt := riskScore_lt_3_10 v d2 (by linarith)
      by_cases hd1a : d1 < 1
      · have hh := riskScore_high_band v d1 h0 hd1a
        linarith
      · by_cases hd1b : d1 ≤ 5
        · have hm := riskScore_med_band v d1 (by linarith) hd1b
          linarith
        · unfold riskScore
          rw [if_neg (by linarith), if_neg (by linarith), if_neg hd1a,
            if_neg hd1b]
          exact div_lt_div_of_pos_left (by norm_num) (by linarith) h

/-- C4: for every nonnegative miss distance and every closing speed, the
Risk Scoring Engine returns a score in [0,1]; below 1 km the severity is
HIGH with score in 0.7-1.0, between 1 and 5 km MEDIUM with score in
0.3-0.7, above 5 km LOW with positive score below 0.3; holding closing
speed fixed the score strictly decreases in the distance; and the
per-object, global-alerts and density call sites apply the identical
scoring function. -/
theorem riskScoring_bands_monotone (d v : ℚ) (hd : 0 ≤ d) :
    (0 ≤ riskScore d v ∧ riskScore d v ≤ 1) ∧
    (d < 1 → riskSeverity d = .HIGH ∧
      7/10 ≤ riskScore d v ∧ riskScore d v ≤ 1) ∧
    (1 ≤ d → d ≤ 5 → riskSeverity d = .MEDIUM ∧
      3/10 ≤ riskScore d v ∧ riskScore d v ≤ 7/10) ∧
    (5 < d → riskSeverity d = .LOW ∧
      0 < riskScore d v ∧ riskScore d v < 3/10) ∧
    (∀ d2, d < d2 → riskScore d2 v < riskScore d v) ∧
    (riskScorePerObject d v = riskScore d v ∧
     riskScoreAlerts d v = riskScore d v ∧
     riskScoreDensity d v = riskScore d v) := by
  refine ⟨?_, ?_, ?_, ?_, fun d2 h => riskScore_strict_anti v d d2 hd h,
    rfl, rfl, rfl⟩
  · by_cases h1 : d < 1
    · have hb := riskScore_high_band v d hd h1
      constructor <;> linarith
    · by_cases h5 : d ≤ 5
      · have hb := riskScore_med_band v d (by linarith) h5
        constructor <;> linarith
      · have ha := riskScore_lt_3_10 v d (by linarith)
        have hb := riskScore_pos_of_5lt v d (by linarith)
        constructor <;> linarith
  · intro h1
    have hb := riskScore_high_band v d hd h1
    exact ⟨by unfold riskSeverity; rw [if_pos h1], hb.1, hb.2⟩
  · intro h1 h5
    have hb := riskScore_med_band v d h1 h5
    exact ⟨by unfold riskSeverity; rw [if_neg (by linarith), if_pos h5],
      hb.1, hb.2⟩
  · intro h5
    have ha := riskScore_lt_3_10 v d h5
    have hb := riskScore_pos_of_5lt v d h5
    exact ⟨by unfold riskSeverity; rw [if_neg (by linarith),
      if_neg (by linarith)], hb, ha⟩

/-- C4 witness: the theorem applied at concrete distances — the HIGH band
at 0.5 km, strict decrease from 0.5 km to 2 km, and call-site agreement. -/
theorem riskScoring_bands_monotone_witness :
    riskSeverity (1/2) = .HIGH ∧ 7/10 ≤ riskScore (1/2) 7 ∧
    riskScore 2 7 < riskScore (1/2) 7 ∧
    riskScoreAlerts (1/2) 7 = riskScore (1/2) 7 := by
  have h := riskScoring_bands_monotone (1/2) 7 (by norm_num)
  exact ⟨(h.2.1 (by norm_num)).1, (h.2.1 (by norm_num)).2.1,
    h.2.2.2.2.1 2 (by norm_num), h.2.2.2.2.2.2.1⟩

/-- Helper: transitivity of the descending-elevation comparison. -/
theorem visLe_trans (a b c : VisibleStation) (hab : visLe a b = true)
    (hbc : visLe b c = true) : visLe a c = true := by
  simp only [visLe, decide_eq_true_eq] at *
  linarith

/-- Helper: totality of the descending-elevation comparison. -/
theorem visLe_total (a b : VisibleStation) : (visLe a b || visLe b a) = true := by
  simp only [visLe, Bool.or_eq_true, decide_eq_true_eq]
  exact le_total b.elevation_deg a.elevation_deg

/-- Helper: the elevation parametrization is negative whenever the object
sits below the station's local horizon plane. -/
theorem elevationDeg_neg_of_below (sat : SatState) (gs : GroundStation)
    (h : sat.altKm < 0) : elevationDeg sat gs < 0 := by
  unfold elevationDeg
  apply div_neg_of_neg_of_pos
  · linarith
  · have h1 : (0:ℚ) ≤ |sat.sx - gs.gx| + |sat.sy - gs.gy| := by positivity
    have h2 : (0:ℚ) < |sat.altKm| := abs_pos.mpr (by linarith)
    linarith

/-- C5: the batch visibility query returns exactly the stations whose
topocentric elevation is at or above their own minimum elevation mask,
sorted by descending elevation, each entry carrying its elevation angle;
stations below their mask are absent (no sentinel entry); with nonnegative
masks no reported elevation is negative, and an object below the horizon
plane is visible from no station; a station with zero horizontal offset to
the object sees it at elevation 90°. -/
theorem visibility_batch_spec (sat : SatState) (stations : List GroundStation) :
    (∀ gs ∈ stations, gs.min_elevation_deg ≤ elevationDeg sat gs →
      (⟨gs.name, elevationDeg sat gs⟩ : VisibleStation) ∈
        getGroundStationVisibility sat stations) ∧
    (∀ v ∈ getGroundStationVisibility sat stations,
      ∃ gs ∈ stations, v = ⟨gs.name, elevationDeg sat gs⟩ ∧
        gs.min_elevation_deg ≤ elevationDeg sat gs) ∧
    (getGroundStationVisibility sat stations).Pairwise
      (fun a b => b.elevation_deg ≤ a.elevation_deg) ∧
    ((∀ gs ∈ stations, 0 ≤ gs.min_elevation_deg) →
      ∀ v ∈ getGroundStationVisibility sat stations, 0 ≤ v.elevation_deg) ∧
    (sat.altKm < 0 → (∀ gs ∈ stations, 0 ≤ gs.min_elevation_deg) →
      getGroundStationVisibility sat stations = []) ∧
    (∀ gs : GroundStation, sat.sx = gs.gx → sat.sy = gs.gy → 0 < sat.altKm →
      elevationDeg sat gs = 90) := by
  have hmemiff : ∀ v : VisibleStation,
      v ∈ getGroundStationVisibility sat stations ↔
      v ∈ (stations.filter
          (fun gs => gs.min_elevation_deg ≤ elevationDeg sat gs)).map
        (fun gs => (⟨gs.name, elevationDeg sat gs⟩ : VisibleStation)) := by
    intro v
    unfold getGroundStationVisibility
    exact (List.mergeSort_perm _ visLe).mem_iff
  refine ⟨?_, ?_, ?_, ?_, ?_, ?_⟩
  · intro gs hgs hmask
    rw [hmemiff]
    exact List.mem_map_of_mem _
      (List.mem_filter.mpr ⟨hgs, decide_eq_true hmask⟩)
  · intro v hv
    rw [hmemiff] at hv
    obtain ⟨gs, hgs, hshape⟩ := List.mem_map.mp hv
    have hfil := List.mem_filter.mp hgs
    exact ⟨gs, hfil.1, hshape.symm, of_decide_eq_true hfil.2⟩
  · unfold getGroundStationVisibility
    have hs := List.sorted_mergeSort visLe_trans visLe_total
      ((stations.filter
          (fun gs => gs.min_elevation_deg ≤ elevationDeg sat gs)).map
        (fun gs => (⟨gs.name, elevationDeg sat gs⟩ : VisibleStation)))
    exact hs.imp (fun h => of_decide_eq_true h)
  · intro hmasks v hv
    rw [hmemiff] at hv
    obtain ⟨gs, hgs, hshape⟩ := List.mem_map.mp hv
    have hfil := List.mem_filter.mp hgs
    have := le_trans (hmasks gs hfil.1) (of_decide_eq_true hfil.2)
    rw [← hshape]
    exact this
  · intro hbelow hmasks
    unfold getGroundStationVisibility
    have hfil : stations.filter
        (fun gs => gs.min_elevation_deg ≤ elevationDeg sat gs) = [] := by
      rw [List.filter_eq_nil_iff]
      intro gs hgs
      have hneg := elevationDeg_neg_of_below sat gs hbelow
      have hm := hmasks gs hgs
      simp only [decide_eq_true_eq]
      linarith
    rw [hfil, List.map_nil, List.mergeSort_nil]
  · intro gs hx hy halt
    unfold elevationDeg
    rw [hx, hy]
    simp only [sub_self, abs_zero, add_zero, zero_add]
    rw [abs_of_pos halt]
    field_simp

/-- C5 witness: a station directly beneath the object reports elevation
90° and appears in the batch answer of a concrete two-station catalog. -/
theorem visibility_batch_spec_witness :
    elevationDeg ⟨0, 0, 550⟩ ⟨"Overhead", 0, 0, 10⟩ = 90 ∧
    (⟨"Overhead", 90⟩ : VisibleStation) ∈
      getGroundStationVisibility ⟨0, 0, 550⟩
        [⟨"Overhead", 0, 0, 10⟩, ⟨"Far", 1000, 0, 40⟩] := by
  have h := visibility_batch_spec ⟨0, 0, 550⟩
    [⟨"Overhead", 0, 0, 10⟩, ⟨"Far", 1000, 0, 40⟩]
  have h90 : elevationDeg ⟨0, 0, 550⟩ ⟨"Overhead", 0, 0, 10⟩ = 90 :=
    h.2.2.2.2.2 ⟨"Overhead", 0, 0, 10⟩ rfl rfl (by norm_num)
  refine ⟨h90, ?_⟩
  have hmem := h.1 ⟨"Overhead", 0, 0, 10⟩ (by simp) (by rw [h90]; norm_num)
  rw [h90] at hmem
  exact hmem

/-- Helper: with a positive partition width, two coordinates at most the
width apart land in the same or adjacent partition cells. -/
theorem nearCell_of_close (t a b : ℤ) (ht : 0 < t) (h1 : -t ≤ a - b)
    (h2 : a - b ≤ t) : nearCell t a b = true := by
  unfold nearCell cellIndex
  have hle : a / t ≤ (b + t) / t := Int.ediv_le_ediv ht (by linarith)
  have hge : (b - t) / t ≤ a / t := Int.ediv_le_ediv ht (by linarith)
  have e1 : (b + t) / t = b / t + 1 := by
    have := Int.add_mul_ediv_right b 1 (by omega : t ≠ 0)
    simpa using this
  have e2 : (b - t) / t = b / t - 1 := by
    have := Int.add_mul_ediv_right b (-1) (by omega : t ≠ 0)
    simpa using this
  rw [e1] at hle
  rw [e2] at hge
  simp only [decide_eq_true_eq]
  omega

/-- Helper: a pair within the alert threshold is close in every single
coordinate. -/
theorem coord_close_of_distSq (a b : ScreenObject) (t : ℤ) (ht : 0 < t)
    (h : objDistSq a b ≤ t ^ 2) :
    (-t ≤ a.px - b.px ∧ a.px - b.px ≤ t) ∧
    (-t ≤ a.py - b.py ∧ a.py - b.py ≤ t) ∧
    (-t ≤ a.altKm - b.altKm ∧ a.altKm - b.altKm ≤ t) := by
  unfold objDistSq at h
  have hx : (a.px - b.px) ^ 2 ≤ t ^ 2 := by
    nlinarith [sq_nonneg (a.py - b.py), sq_nonneg (a.altKm - b.altKm)]
  have hy : (a.py - b.py) ^ 2 ≤ t ^ 2 := by
    nlinarith [sq_nonneg (a.px - b.px), sq_nonneg (a.altKm - b.altKm)]
  have hz : (a.altKm - b.altKm) ^ 2 ≤ t ^ 2 := by
    nlinarith [sq_nonneg (a.px - b.px), sq_nonneg (a.py - b.py)]
  refine ⟨⟨?_, ?_⟩, ⟨?_, ?_⟩, ⟨?_, ?_⟩⟩
  · nlinarith [sq_nonneg (a.px - b.px + t)]
  · nlinarith [sq_nonneg (a.px - b.px - t)]
  · nlinarith [sq_nonneg (a.py - b.py + t)]
  · nlinarith [sq_nonneg (a.py - b.py - t)]
  · nlinarith [sq_nonneg (a.altKm - b.altKm + t)]
  · nlinarith [sq_nonneg (a.altKm - b.altKm - t)]

/-- Helper: transitivity of the deterministic output order. -/
theorem pairLe_trans (a b c : CandidatePair) (hab : pairLe a b = true)
    (hbc : pairLe b c = true) : pairLe a c = true := by
  simp only [pairLe, decide_eq_true_eq] at *
  omega

/-- Helper: totality of the deterministic output order. -/
theorem pairLe_total (a b : CandidatePair) : (pairLe a b || pairLe b a) = true := by
  simp only [pairLe, Bool.or_eq_true, decide_eq_true_eq]
  omega

/-- C1: for every catalog of at most 500 objects and every positive alert
threshold, the partitioned (altitude-band plus geographic-grid) result of
the Proximity Screening Engine is identical — as an ordered list — to the
brute-force all-pairs scan at the same threshold, and the output is
ordered deterministically: ascending distance, then ascending TCA, then
lexicographically smallest object-pair id. -/
theorem screening_partitioned_eq_brute (t : ℤ) (cat : List ScreenObject)
    (_hsize : cat.length ≤ 500) (ht : 0 < t) :
    screenPartitioned t cat = screenBrute t cat ∧
    (screenBrute t cat).Pairwise (fun p q => pairLe p q = true) := by
  constructor
  · unfold screenPartitioned screenBrute
    congr 1
    congr 1
    apply List.filter_congr
    intro ab _
    by_cases hd : objDistSq ab.1 ab.2 ≤ t ^ 2
    · obtain ⟨⟨hx1, hx2⟩, ⟨hy1, hy2⟩, ⟨hz1, hz2⟩⟩ :=
        coord_close_of_distSq ab.1 ab.2 t ht hd
      rw [nearCell_of_close t _ _ ht hz1 hz2,
        nearCell_of_close t _ _ ht hx1 hx2,
        nearCell_of_close t _ _ ht hy1 hy2]
      simp [hd]
    · simp [hd]
  · exact List.sorted_mergeSort pairLe_trans pairLe_total _

/-- C1 witness: the theorem applied to a concrete three-object catalog
(two objects 5 km apart, one far away) at threshold 10 km. -/
theorem screening_partitioned_eq_brute_witness :
    screenPartitioned 10 [⟨1, 100, 0, 0, 550⟩, ⟨2, 200, 5, 0, 550⟩,
        ⟨3, 300, 1000, 0, 550⟩] =
      screenBrute 10 [⟨1, 100, 0, 0, 550⟩, ⟨2, 200, 5, 0, 550⟩,
        ⟨3, 300, 1000, 0, 550⟩] := by
  exact (screening_partitioned_eq_brute 10 _ (by decide) (by decide)).1
